import Mathlib

/-!
Verification of the object-centric option-critic helper modules against their
specification. The development shallowly embeds the two source files:

- logger.py: the metrics recorder (class Logger);
- src/envs/common.py: the vectorized-environment factory.

Python machine values are modelled with Nat, Int and Rat; fallible calls return
Except PyError; the scalar-metrics sink is modelled as the list of entries
handed to the writer, in emission order, together with the fault (if any) that
the call surfaces to its caller after those emissions.
-/

namespace OCOC

/-- Errors a modelled Python call can raise to its caller. -/
inductive PyError where
  | indexError
  | valueError (msg : String)
  | zeroDivisionError
deriving DecidableEq, Repr

/-! ## Python string semantics helpers -/

/-- Core of Python str.split with a one-character separator, over the character
list of the string: returns the first chunk and the list of remaining chunks. -/
def pySplitCharCore (sep : Char) : List Char → List Char × List (List Char)
  | [] => ([], [])
  | c :: rest =>
    let r := pySplitCharCore sep rest
    if c = sep then ([], r.1 :: r.2) else (c :: r.1, r.2)

/-- Python str.split with a one-character separator: always a non-empty list of
(possibly empty) chunks; the empty string splits to one empty chunk. -/
def pySplitChar (sep : Char) (l : List Char) : List (List Char) :=
  (pySplitCharCore sep l).1 :: (pySplitCharCore sep l).2

/-- Python substring test helper: does the sublist occur contiguously? -/
def containsSublist (sub : List Char) : List Char → Bool
  | [] => sub.isEmpty
  | c :: rest => sub.isPrefixOf (c :: rest) || containsSublist sub rest

/-- Python substring containment, the expression sub in s on strings. -/
def pyIn (sub s : String) : Bool := containsSublist sub.data s.data

/-- Python str.lower over the character list (ASCII case mapping). -/
def pyLower (l : List Char) : List Char := l.map Char.toLower

/-- Python string slicing s[n:], by characters. -/
def pyDropStr (s : String) (n : Nat) : String := String.mk (s.data.drop n)

/-- Decidable equality for modelled fallible results. -/
instance {ε α : Type} [DecidableEq ε] [DecidableEq α] : DecidableEq (Except ε α) := fun a b =>
  match a, b with
  | Except.error x, Except.error y =>
    if h : x = y then isTrue (by rw [h]) else isFalse (fun he => h (by injection he))
  | Except.error _, Except.ok _ => isFalse (fun he => Except.noConfusion he)
  | Except.ok _, Except.error _ => isFalse (fun he => Except.noConfusion he)
  | Except.ok x, Except.ok y =>
    if h : x = y then isTrue (by rw [h]) else isFalse (fun he => h (by injection he))

/-! ## Metrics recorder (logger.py) -/

/-- One scalar handed to the metrics sink: one call
writer.add_scalar(tag, scalar_value, global_step), values as exact rationals. -/
structure ScalarEntry where
  tag : String
  scalar_value : ℚ
  global_step : ℕ
deriving DecidableEq, Repr

/-- The mutable state of a Logger instance that the claims are about: the
episode counter n_eps (logger.py line 13). The destination path, wall-clock
start time and the text-log stream are I/O and not modelled. -/
structure LoggerState where
  n_eps : ℕ
deriving DecidableEq, Repr

/-- Logger construction sets n_eps = 0 (logger.py line 13). -/
def loggerInit : LoggerState := { n_eps := 0 }

/-- Tag of the per-option average-length scalar (logger.py line 40). -/
def optionAvgTag (option : ℕ) : String :=
  "option_" ++ toString option ++ "_avg_length"

/-- Tag of the per-option active-fraction scalar (logger.py line 42). -/
def optionActiveTag (option : ℕ) : String :=
  "option_" ++ toString option ++ "_active"

/-- Result of one recorder call: the scalars handed to the writer before any
fault, plus the fault (if any) surfaced to the caller. -/
structure EmitResult where
  entries : List ScalarEntry
  fault : Option PyError
deriving DecidableEq, Repr

/-- The per-option loop of Logger.log_episode (logger.py lines 38 to 43): for
each (option, lens) pair in mapping order, first the average-length scalar,
np.mean(lens) if len(lens) > 0 else 0, is written, then sum(lens) / ep_steps is
computed for the active-fraction scalar; with ep_steps = 0 that division raises
ZeroDivisionError, after the average-length scalar was already written. -/
def optionScalars (n_eps ep_steps : ℕ) : List (ℕ × List ℚ) → EmitResult
  | [] => { entries := [], fault := none }
  | (option, lens) :: rest =>
    let avg : ScalarEntry :=
      { tag := optionAvgTag option
        scalar_value := if lens.length > 0 then lens.sum / (lens.length : ℚ) else 0
        global_step := n_eps }
    if ep_steps = 0 then
      { entries := [avg], fault := some PyError.zeroDivisionError }
    else
      let active : ScalarEntry :=
        { tag := optionActiveTag option
          scalar_value := lens.sum / (ep_steps : ℚ)
          global_step := n_eps }
      let r := optionScalars n_eps ep_steps rest
      { entries := avg :: active :: r.entries, fault := r.fault }

/-- Result of Logger.log_episode: the successor recorder state and the emitted
scalars with the optional surfaced fault. -/
structure LogEpisodeResult where
  state : LoggerState
  emitted : EmitResult
deriving DecidableEq, Repr

/-- Logger.log_episode (logger.py lines 30 to 43): increments n_eps first, then
writes the episodic_rewards and episode_lengths scalars keyed by the new
counter value, then the per-option statistics. The steps and epsilon arguments
only feed the human-readable text log line and produce no scalar entries. -/
def log_episode (s : LoggerState) (steps : ℕ) (reward : ℚ)
    (option_lengths : List (ℕ × List ℚ)) (ep_steps : ℕ) (epsilon : ℚ) :
    LogEpisodeResult :=
  let n := s.n_eps + 1
  let opts := optionScalars n ep_steps option_lengths
  { state := { n_eps := n }
    emitted :=
      { entries :=
          { tag := "episodic_rewards", scalar_value := reward, global_step := n } ::
          { tag := "episode_lengths", scalar_value := (ep_steps : ℚ), global_step := n } ::
          opts.entries
        fault := opts.fault } }

/-- Python truthiness of an optional scalar loss value, the guard written as
if actor_loss: in logger.py lines 46 and 48. None is falsy, and a present
zero-dimensional tensor is falsy exactly when its value is zero. -/
def pyTruthy : Option ℚ → Bool
  | none => false
  | some v => v != 0

/-- Logger.log_data (logger.py lines 45 to 51): the actor and critic losses are
emitted under the truthiness guards if actor_loss: and if critic_loss:, then
policy_entropy and epsilon are emitted unconditionally, all keyed by step; the
recorder state is untouched. -/
def log_data (s : LoggerState) (step : ℕ) (actor_loss critic_loss : Option ℚ)
    (entropy epsilon : ℚ) : LoggerState × List ScalarEntry :=
  (s,
    (if pyTruthy actor_loss then
      [{ tag := "actor_loss", scalar_value := actor_loss.getD 0, global_step := step }]
     else []) ++
    (if pyTruthy critic_loss then
      [{ tag := "critic_loss", scalar_value := critic_loss.getD 0, global_step := step }]
     else []) ++
    [{ tag := "policy_entropy", scalar_value := entropy, global_step := step },
     { tag := "epsilon", scalar_value := epsilon, global_step := step }])

/-! ## Environment factory (src/envs/common.py) -/

/-- Modelled from the spec: the constant FOCUS_FILES_DIR is imported from the
module common, which is absent from this repository snapshot; the spec names it
only as the focus dir. Its concrete value is irrelevant to every claim. -/
def FOCUS_FILES_DIR : String := "focus-dir"

/-- Modelled from the spec: the constant FOCUS_FILES_DIR_UNPRUNED is imported
from the absent module common; the spec names it only as the unpruned focus
dir. Its concrete value is irrelevant to every claim. -/
def FOCUS_FILES_DIR_UNPRUNED : String := "unpruned-focus-dir"

/-- get_atari_identifier (common.py lines 23 to 25):
env_name.split("/")[1].split("-")[0].lower(); the index [1] raises IndexError
exactly when the name contains no "/" character. -/
def get_atari_identifier (env_name : String) : Except PyError String :=
  match (pySplitChar '/' env_name.data)[1]? with
  | none => Except.error PyError.indexError
  | some seg => Except.ok (String.mk (pyLower ((pySplitChar '-' seg).headD [])))

/-- get_pruned_focus_file_from_env_name (common.py lines 163 to 168): the Atari
branch is taken whenever "ALE" occurs anywhere in the name, otherwise the name
itself becomes the identifier; then ".yaml" is appended. -/
def get_pruned_focus_file_from_env_name (name : String) : Except PyError String :=
  if pyIn "ALE" name then
    match get_atari_identifier name with
    | Except.ok env_identifier => Except.ok (env_identifier ++ ".yaml")
    | Except.error e => Except.error e
  else
    Except.ok (name ++ ".yaml")

/-- A pathlib Path built as Path(dir, file): a directory component and a file
name component. -/
structure PyPath where
  dir : String
  file : String
deriving DecidableEq, Repr

/-- get_focus_file_path (common.py lines 171 to 182): first the identifier is
resolved exactly as in get_pruned_focus_file_from_env_name (this step can raise
IndexError before the concept is examined), then the prune concept dispatch:
"default", "unpruned", or ValueError. -/
def get_focus_file_path (prune_concept env_name : String) : Except PyError PyPath :=
  match (if pyIn "ALE" env_name then get_atari_identifier env_name
         else Except.ok env_name) with
  | Except.error e => Except.error e
  | Except.ok env_identifier =>
    if prune_concept = "default" then
      Except.ok { dir := FOCUS_FILES_DIR, file := env_identifier ++ ".yaml" }
    else if prune_concept = "unpruned" then
      Except.ok { dir := FOCUS_FILES_DIR_UNPRUNED
                  file := "default_focus_" ++ pyDropStr env_name 4 ++ ".yaml" }
    else
      Except.error (PyError.valueError
        ("Unknown prune concept " ++ prune_concept ++ " given."))

/-- What the closure returned by make_scobi_env (common.py lines 28 to 53)
builds when invoked: a ScobiEnv constructed with these arguments, wrapped in a
Monitor, and reset with seed = seed + rank. -/
structure ScobiEnvInit where
  name : String
  focus_dir : String
  focus_file : Option String
  hide_properties : Bool
  silent : Bool
  reward_mode : ℤ
  refresh_yaml : Bool
  render_mode : Option String
  freeze_invisible_obj : Bool
  render_oc_overlay : Bool
  rank : ℕ
  monitored : Bool
  reset_seed : ℤ
deriving DecidableEq, Repr

/-- make_scobi_env (common.py lines 28 to 53), modelled by the environment
description its returned thunk constructs. -/
def make_scobi_env (name : String) (focus_dir : String) (pruned_ff_name : Option String)
    (exclude_properties : Bool) (rank : ℕ) (seed : ℤ) (silent : Bool) (refresh : Bool)
    (reward_mode : ℤ) (render_mode : Option String) (freeze_invisible_obj : Bool)
    (render_oc_overlay : Bool) : ScobiEnvInit :=
  { name := name
    focus_dir := focus_dir
    focus_file := pruned_ff_name
    hide_properties := exclude_properties
    silent := silent
    reward_mode := reward_mode
    refresh_yaml := refresh
    render_mode := render_mode
    freeze_invisible_obj := freeze_invisible_obj
    render_oc_overlay := render_oc_overlay
    rank := rank
    monitored := true
    reset_seed := seed + (rank : ℤ) }

/-- The kind of vectorized container selected by init_vec_env:
SubprocVecEnv (parallel, one subprocess per environment) or DummyVecEnv
(sequential, single process). -/
inductive VecContainerKind where
  | subproc
  | dummy
deriving DecidableEq, Repr

/-- The arguments handed to make_atari_env in the pixel branch of init_vec_env
(common.py lines 151 to 157). -/
structure AtariVecEnvSpec where
  name : String
  n_envs : ℕ
  seed : ℤ
  render_mode : Option String
  frame_skip : ℕ
deriving DecidableEq, Repr

/-- The environment handle init_vec_env returns: either an object-centric
vector environment wrapped in VecNormalize (loaded from a path, or fresh), or a
pixel vector environment wrapped in VecFrameStack and nothing else. -/
inductive VecEnvHandle where
  | ocNormLoaded (vec_norm_path : String) (training : Bool)
      (container : VecContainerKind) (envs : List ScobiEnvInit)
  | ocNormFresh (norm_obs norm_reward training : Bool)
      (container : VecContainerKind) (envs : List ScobiEnvInit)
  | pixelFrameStack (n_stack : ℕ) (container : VecContainerKind)
      (atari : AtariVecEnvSpec)
deriving DecidableEq, Repr

/-- The vectorized container kind underneath the handle's wrappers. -/
def VecEnvHandle.container : VecEnvHandle → VecContainerKind
  | .ocNormLoaded _ _ c _ => c
  | .ocNormFresh _ _ _ c _ => c
  | .pixelFrameStack _ c _ => c

/-- The object-centric environment factories underneath the handle (empty for
the pixel pipeline). -/
def VecEnvHandle.scobiEnvs : VecEnvHandle → List ScobiEnvInit
  | .ocNormLoaded _ _ _ envs => envs
  | .ocNormFresh _ _ _ _ envs => envs
  | .pixelFrameStack _ _ _ => []

/-- Whether the handle is wrapped in a VecNormalize layer. -/
def VecEnvHandle.isNormalizeWrapped : VecEnvHandle → Bool
  | .ocNormLoaded _ _ _ _ => true
  | .ocNormFresh _ _ _ _ _ => true
  | .pixelFrameStack _ _ _ => false

/-- The parameters of init_vec_env (common.py lines 78 to 93). prune_concept
defaults to None in the source, hence an Option. -/
structure VecEnvConfig where
  name : String
  n_envs : ℕ
  seed : ℤ
  object_centric : Bool
  reward_mode : ℤ
  prune_concept : Option String
  exclude_properties : Bool
  frameskip : ℕ
  framestack : ℕ
  normalize_observation : Bool
  normalize_reward : Bool
  vec_norm_path : Option String
  train : Bool
  freeze_invisible_obj : Bool
  render_mode : Option String
  render_oc_overlay : Bool
deriving DecidableEq, Repr

/-- The prune-concept dispatch at the head of the object-centric branch of
init_vec_env (common.py lines 97 to 104): resolves the focus directory and the
pruned focus-file name, raising ValueError for every concept other than
"unpruned" or "default" (including the None default); the "default" arm can
itself raise through get_pruned_focus_file_from_env_name. -/
def prune_concept_dispatch (cfg : VecEnvConfig) : Except PyError (String × Option String) :=
  if cfg.prune_concept = some "unpruned" then
    Except.ok (FOCUS_FILES_DIR_UNPRUNED, none)
  else if cfg.prune_concept = some "default" then
    match get_pruned_focus_file_from_env_name cfg.name with
    | Except.ok ff => Except.ok (FOCUS_FILES_DIR, some ff)
    | Except.error e => Except.error e
  else
    Except.error (PyError.valueError ("Unknown prune concept " ++
      (match cfg.prune_concept with
       | some s => s
       | none => "None") ++ "."))

/-- The per-rank factory list of the object-centric branch (common.py lines
116 to 127): one make_scobi_env factory per rank 0..n_envs-1, all sharing the
base seed, built silent and without focus-file refresh. -/
def scobi_env_factories (cfg : VecEnvConfig) (fd : String × Option String) :
    List ScobiEnvInit :=
  (List.range cfg.n_envs).map (fun i =>
    make_scobi_env cfg.name fd.1 fd.2 cfg.exclude_properties i cfg.seed
      true false cfg.reward_mode cfg.render_mode cfg.freeze_invisible_obj
      cfg.render_oc_overlay)

/-- The container selection shared verbatim by both branches (common.py lines
129 to 132 and 145 to 150): SubprocVecEnv when n_envs > 1, else DummyVecEnv. -/
def select_container (n_envs : ℕ) : VecContainerKind :=
  if n_envs > 1 then VecContainerKind.subproc else VecContainerKind.dummy

/-- The VecNormalize wrap of the object-centric branch (common.py lines 134 to
142): loaded from vec_norm_path when one is given, otherwise fresh with the
two normalization toggles; training follows the train flag either way. -/
def normalize_wrap (cfg : VecEnvConfig) (container : VecContainerKind)
    (envs : List ScobiEnvInit) : VecEnvHandle :=
  match cfg.vec_norm_path with
  | some p => VecEnvHandle.ocNormLoaded p cfg.train container envs
  | none =>
    VecEnvHandle.ocNormFresh cfg.normalize_observation cfg.normalize_reward
      cfg.train container envs

/-- init_vec_env (common.py lines 78 to 160). The object-centric branch runs
the prune-concept dispatch (propagating its error), builds the factory list
and the container, and always wraps in VecNormalize. The probe environment of
lines 107 to 114 is constructed only to run the external check_env validation
and is discarded, so it is not part of the returned handle. The pixel branch
delegates to make_atari_env with the identical container choice and wraps the
result in VecFrameStack only, ignoring all normalization parameters. -/
def init_vec_env (cfg : VecEnvConfig) : Except PyError VecEnvHandle :=
  if cfg.object_centric then
    match prune_concept_dispatch cfg with
    | Except.error e => Except.error e
    | Except.ok fd =>
      Except.ok (normalize_wrap cfg (select_container cfg.n_envs)
        (scobi_env_factories cfg fd))
  else
    Except.ok (VecEnvHandle.pixelFrameStack cfg.framestack
      (select_container cfg.n_envs)
      { name := cfg.name
        n_envs := cfg.n_envs
        seed := cfg.seed
        render_mode := cfg.render_mode
        frame_skip := cfg.frameskip })

/-- The two configurations init_train_eval_envs passes to init_vec_env
(common.py lines 56 to 75). The REWARD_MODE table, imported from the absent
module common, is abstracted as the parameter rewardModeTable (Modelled from
the spec: it maps the reward-mode name to an integer code, with "none" mapping
to 0). The train call passes no render_mode, so the train configuration keeps
the None default; the eval call passes reward_mode = 0, the doubled shifted
seed, and a render mode of "human" exactly when render_eval is set. -/
def train_eval_configs (rewardModeTable : String → ℤ) (n_train_envs n_eval_envs : ℕ)
    (seed : ℤ) (reward_mode : String) (render_eval : Bool) (base : VecEnvConfig) :
    VecEnvConfig × VecEnvConfig :=
  let eval_seed := (seed + 42) * 2
  let eval_render_mode : Option String := if render_eval then some "human" else none
  ({ base with
      n_envs := n_train_envs
      seed := seed
      train := true
      reward_mode := rewardModeTable reward_mode
      render_mode := none },
   { base with
      n_envs := n_eval_envs
      seed := eval_seed
      train := false
      reward_mode := 0
      render_mode := eval_render_mode })

/-- init_train_eval_envs (common.py lines 56 to 75): builds the train handle
and the eval handle from the two derived configurations. -/
def init_train_eval_envs (rewardModeTable : String → ℤ) (n_train_envs n_eval_envs : ℕ)
    (seed : ℤ) (reward_mode : String) (render_eval : Bool) (base : VecEnvConfig) :
    Except PyError VecEnvHandle × Except PyError VecEnvHandle :=
  let cfgs := train_eval_configs rewardModeTable n_train_envs n_eval_envs seed
    reward_mode render_eval base
  (init_vec_env cfgs.1, init_vec_env cfgs.2)

/-- A concrete pixel configuration used by the concrete witnesses below. -/
def pixelExampleCfg : VecEnvConfig :=
  { name := "Pong", n_envs := 2, seed := 0, object_centric := false,
    reward_mode := 0, prune_concept := none, exclude_properties := false,
    frameskip := 4, framestack := 4, normalize_observation := false,
    normalize_reward := false, vec_norm_path := none, train := false,
    freeze_invisible_obj := false, render_mode := none, render_oc_overlay := false }

/-- The handle init_vec_env returns for pixelExampleCfg. -/
def pixelExampleHandle : VecEnvHandle :=
  VecEnvHandle.pixelFrameStack pixelExampleCfg.framestack
    (select_container pixelExampleCfg.n_envs)
    { name := pixelExampleCfg.name, n_envs := pixelExampleCfg.n_envs,
      seed := pixelExampleCfg.seed, render_mode := pixelExampleCfg.render_mode,
      frame_skip := pixelExampleCfg.frameskip }

/-- A concrete object-centric configuration (three parallel environments,
default pruning concept, base seed 7) used by the concrete witnesses below. -/
def ocExampleCfg : VecEnvConfig :=
  { name := "ALE/Pong-v5", n_envs := 3, seed := 7, object_centric := true,
    reward_mode := 0, prune_concept := some "default", exclude_properties := false,
    frameskip := 4, framestack := 1, normalize_observation := false,
    normalize_reward := false, vec_norm_path := none, train := true,
    freeze_invisible_obj := false, render_mode := none, render_oc_overlay := false }

/-- The handle init_vec_env returns for ocExampleCfg. -/
def ocExampleHandle : VecEnvHandle :=
  normalize_wrap ocExampleCfg (select_container ocExampleCfg.n_envs)
    (scobi_env_factories ocExampleCfg (FOCUS_FILES_DIR, some "pong.yaml"))

/-! ## Helper lemmas on the Python string semantics -/

theorem pySplitCharCore_no_sep (sep : Char) (l : List Char) (h : sep ∉ l) :
    pySplitCharCore sep l = (l, []) := by
  induction l with
  | nil => rfl
  | cons c rest ih =>
    have hc : ¬ c = sep := fun he => h (he ▸ List.mem_cons_self c rest)
    have hr : sep ∉ rest := fun hm => h (List.mem_cons_of_mem _ hm)
    simp [pySplitCharCore, ih hr, hc]

theorem pySplitCharCore_append_sep (sep : Char) (l t : List Char) (h : sep ∉ l) :
    pySplitCharCore sep (l ++ sep :: t) = (l, pySplitChar sep t) := by
  induction l with
  | nil => simp [pySplitCharCore, pySplitChar]
  | cons c rest ih =>
    have hc : ¬ c = sep := fun he => h (he ▸ List.mem_cons_self c rest)
    have hr : sep ∉ rest := fun hm => h (List.mem_cons_of_mem _ hm)
    simp [pySplitCharCore, ih hr, hc]

theorem pySplitCharCore_fst (sep : Char) (l : List Char) :
    (pySplitCharCore sep l).1 = l.takeWhile (fun c => !(c == sep)) := by
  induction l with
  | nil => rfl
  | cons c rest ih =>
    by_cases hc : c = sep
    · simp [pySplitCharCore, hc, List.takeWhile_cons]
    · simp [pySplitCharCore, hc, List.takeWhile_cons, ih]

theorem takeWhile_append_of_all {α : Type} (p : α → Bool) (l t : List α)
    (h : ∀ c ∈ l, p c = true) :
    (l ++ t).takeWhile p = l ++ t.takeWhile p := by
  induction l with
  | nil => simp
  | cons c rest ih =>
    have hc := h c (List.mem_cons_self c rest)
    simp [List.takeWhile_cons, hc, ih (fun x hx => h x (List.mem_cons_of_mem _ hx))]

theorem isPrefixOf_append_self {α : Type} [BEq α] [LawfulBEq α] (l t : List α) :
    l.isPrefixOf (l ++ t) = true := by
  induction l with
  | nil => simp [List.isPrefixOf]
  | cons c rest ih => simp [List.isPrefixOf, ih]

theorem containsSublist_append_self (sub t : List Char) :
    containsSublist sub (sub ++ t) = true := by
  cases sub with
  | nil =>
    cases t with
    | nil => rfl
    | cons c cs => simp [containsSublist, List.isPrefixOf]
  | cons c cs => simp [containsSublist, isPrefixOf_append_self]

theorem pyTruthy_eq_true_iff (o : Option ℚ) :
    pyTruthy o = true ↔ ∃ v, o = some v ∧ v ≠ 0 := by
  cases o <;> simp [pyTruthy]

/-! ## Claim C1 -/

/-- C1: the claim as stated is false on the code. With an actor loss that is
present but equal to 0 (a zero scalar loss is falsy under the guard written as
if actor_loss:), log_data emits no actor-loss scalar at all, while the present
critic loss 1 is emitted. So presence alone does not govern emission. -/
theorem C1_truthiness_counterexample :
    (log_data { n_eps := 3 } 7 (some 0) (some 1) 1 1).2.filter
      (fun e => e.tag == "actor_loss") = []
  ∧ (log_data { n_eps := 3 } 7 (some 0) (some 1) 1 1).2.filter
      (fun e => e.tag == "critic_loss") ≠ [] := by
  decide

/-- C1 (amended): for every call to log_data, the actor-loss scalar is emitted
exactly when an actor loss is present with a nonzero value (Python truthiness:
a present zero loss is skipped exactly like an absent one, silently, never an
error), and likewise for the critic-loss scalar, while the entropy and
exploration-rate scalars are emitted unconditionally; every emitted scalar is
keyed by the given step index, and the recorder state is unchanged. -/
theorem C1_log_data_emission (s : LoggerState) (step : ℕ)
    (actor_loss critic_loss : Option ℚ) (entropy epsilon : ℚ) :
    ((∃ e ∈ (log_data s step actor_loss critic_loss entropy epsilon).2,
        e.tag = "actor_loss") ↔ ∃ v, actor_loss = some v ∧ v ≠ 0)
  ∧ ((∃ e ∈ (log_data s step actor_loss critic_loss entropy epsilon).2,
        e.tag = "critic_loss") ↔ ∃ v, critic_loss = some v ∧ v ≠ 0)
  ∧ ({ tag := "policy_entropy", scalar_value := entropy, global_step := step } : ScalarEntry)
        ∈ (log_data s step actor_loss critic_loss entropy epsilon).2
  ∧ ({ tag := "epsilon", scalar_value := epsilon, global_step := step } : ScalarEntry)
        ∈ (log_data s step actor_loss critic_loss entropy epsilon).2
  ∧ (∀ e ∈ (log_data s step actor_loss critic_loss entropy epsilon).2,
        e.global_step = step)
  ∧ (log_data s step actor_loss critic_loss entropy epsilon).1 = s := by
  have hmem : ∀ e : ScalarEntry,
      e ∈ (log_data s step actor_loss critic_loss entropy epsilon).2 ↔
      (pyTruthy actor_loss = true ∧
        e = { tag := "actor_loss", scalar_value := actor_loss.getD 0, global_step := step })
    ∨ (pyTruthy critic_loss = true ∧
        e = { tag := "critic_loss", scalar_value := critic_loss.getD 0, global_step := step })
    ∨ e = { tag := "policy_entropy", scalar_value := entropy, global_step := step }
    ∨ e = { tag := "epsilon", scalar_value := epsilon, global_step := step } := by
    intro e
    unfold log_data
    cases hA : pyTruthy actor_loss <;> cases hC : pyTruthy critic_loss <;> simp
  refine ⟨?_, ?_, ?_, ?_, ?_, rfl⟩
  · constructor
    · rintro ⟨e, he, ht⟩
      rcases (hmem e).1 he with ⟨hA, rfl⟩ | ⟨hC, rfl⟩ | rfl | rfl
      · exact (pyTruthy_eq_true_iff actor_loss).1 hA
      · simp at ht
      · simp at ht
      · simp at ht
    · rintro ⟨v, hv, hnz⟩
      refine ⟨{ tag := "actor_loss", scalar_value := actor_loss.getD 0,
                global_step := step }, ?_, rfl⟩
      exact (hmem _).2 (Or.inl ⟨(pyTruthy_eq_true_iff actor_loss).2 ⟨v, hv, hnz⟩, rfl⟩)
  · constructor
    · rintro ⟨e, he, ht⟩
      rcases (hmem e).1 he with ⟨hA, rfl⟩ | ⟨hC, rfl⟩ | rfl | rfl
      · simp at ht
      · exact (pyTruthy_eq_true_iff critic_loss).1 hC
      · simp at ht
      · simp at ht
    · rintro ⟨v, hv, hnz⟩
      refine ⟨{ tag := "critic_loss", scalar_value := critic_loss.getD 0,
                global_step := step }, ?_, rfl⟩
      exact (hmem _).2 (Or.inr (Or.inl ⟨(pyTruthy_eq_true_iff critic_loss).2 ⟨v, hv, hnz⟩, rfl⟩))
  · exact (hmem _).2 (Or.inr (Or.inr (Or.inl rfl)))
  · exact (hmem _).2 (Or.inr (Or.inr (Or.inr rfl)))
  · intro e he
    rcases (hmem e).1 he with ⟨_, rfl⟩ | ⟨_, rfl⟩ | rfl | rfl <;> rfl

/-- C1 witness: the amended theorem applied at a concrete emitted call. -/
theorem C1_log_data_emission_witness :
    ({ tag := "policy_entropy", scalar_value := 2, global_step := 9 } : ScalarEntry)
      ∈ (log_data { n_eps := 5 } 9 (some 3) none 2 (1/2)).2
  ∧ (∃ e ∈ (log_data { n_eps := 5 } 9 (some 3) none 2 (1/2)).2, e.tag = "actor_loss") := by
  have h := C1_log_data_emission { n_eps := 5 } 9 (some 3) none 2 (1/2)
  exact ⟨h.2.2.1, h.1.2 ⟨3, rfl, by norm_num⟩⟩

/-! ## Claim C2 -/

/-- C2: the claim as stated is false on the code. The name WhALEs is not an
Atari identifier, so the claim requires the result WhALEs.yaml; but because
"ALE" occurs inside it, the code takes the Atari branch and the index [1] into
the result of split("/") raises IndexError. -/
theorem C2_substring_counterexample :
    get_pruned_focus_file_from_env_name "WhALEs" = Except.error PyError.indexError := by
  decide

/-- C2 (amended): every name of the Atari form, the string ALE/ followed by a
game segment free of the characters "/" and "-" and then a dash-revision
suffix, resolves to the lower-cased game segment with ".yaml" appended; every
identifier that does not contain "ALE" anywhere passes through unchanged with
".yaml" appended; but an identifier merely containing "ALE" as a substring is
routed to the Atari branch, and when it has no "/" the call raises IndexError
instead of returning a name. -/
theorem C2_focus_file_name (g r other badName : String)
    (hg1 : '/' ∉ g.data) (hg2 : '-' ∉ g.data)
    (hother : pyIn "ALE" other = false)
    (hbad1 : pyIn "ALE" badName = true) (hbad2 : '/' ∉ badName.data) :
    get_pruned_focus_file_from_env_name ("ALE/" ++ g ++ "-v" ++ r) =
      Except.ok (String.mk (pyLower g.data) ++ ".yaml")
  ∧ get_pruned_focus_file_from_env_name other = Except.ok (other ++ ".yaml")
  ∧ get_pruned_focus_file_from_env_name badName = Except.error PyError.indexError := by
  refine ⟨?_, ?_, ?_⟩
  · have hdata : ("ALE/" ++ g ++ "-v" ++ r).data
        = ['A', 'L', 'E'] ++ '/' :: (g.data ++ '-' :: 'v' :: r.data) := by
      have h1 : ("ALE/" : String).data = ['A', 'L', 'E', '/'] := by decide
      have h2 : ("-v" : String).data = ['-', 'v'] := by decide
      simp [String.data_append, h1, h2]
    have hg1' : ∀ c ∈ g.data, (!(c == '/')) = true := by
      intro c hc
      have hne : c ≠ '/' := fun h => hg1 (h ▸ hc)
      simp [hne]
    have hg2' : ∀ c ∈ g.data, (!(c == '-')) = true := by
      intro c hc
      have hne : c ≠ '-' := fun h => hg2 (h ▸ hc)
      simp [hne]
    have hsplit : pySplitChar '/' (("ALE/" ++ g ++ "-v" ++ r).data)
        = ['A', 'L', 'E'] :: pySplitChar '/' (g.data ++ '-' :: 'v' :: r.data) := by
      rw [hdata]
      unfold pySplitChar
      rw [pySplitCharCore_append_sep '/' ['A', 'L', 'E']
        (g.data ++ '-' :: 'v' :: r.data) (by decide)]
      exact rfl
    have hseg : (pySplitCharCore '/' (g.data ++ '-' :: 'v' :: r.data)).1
        = g.data ++ '-' :: 'v' :: r.data.takeWhile (fun c => !(c == '/')) := by
      rw [pySplitCharCore_fst]
      rw [takeWhile_append_of_all _ _ _ hg1']
      simp [List.takeWhile_cons]
    have hheadD :
        (pySplitChar '-' ((pySplitCharCore '/' (g.data ++ '-' :: 'v' :: r.data)).1)).headD []
          = g.data := by
      rw [hseg]
      simp only [pySplitChar, List.headD_cons]
      rw [pySplitCharCore_fst]
      rw [takeWhile_append_of_all _ _ _ hg2']
      simp [List.takeWhile_cons]
    have hid : get_atari_identifier ("ALE/" ++ g ++ "-v" ++ r)
        = Except.ok (String.mk (pyLower g.data)) := by
      unfold get_atari_identifier
      rw [hsplit]
      have hidx : (['A', 'L', 'E'] :: pySplitChar '/' (g.data ++ '-' :: 'v' :: r.data))[1]?
          = some ((pySplitCharCore '/' (g.data ++ '-' :: 'v' :: r.data)).1) := by
        simp [pySplitChar]
      rw [hidx]
      show Except.ok (String.mk (pyLower
        ((pySplitChar '-' ((pySplitCharCore '/' (g.data ++ '-' :: 'v' :: r.data)).1)).headD [])))
          = Except.ok (String.mk (pyLower g.data))
      rw [hheadD]
    have hALE : pyIn "ALE" ("ALE/" ++ g ++ "-v" ++ r) = true := by
      unfold pyIn
      rw [hdata]
      have h4 : ("ALE" : String).data = ['A', 'L', 'E'] := by decide
      rw [h4]
      exact containsSublist_append_self ['A', 'L', 'E'] _
    simp [get_pruned_focus_file_from_env_name, hALE, hid]
  · simp [get_pruned_focus_file_from_env_name, hother]
  · have hsplit : pySplitChar '/' badName.data = [badName.data] := by
      simp [pySplitChar, pySplitCharCore_no_sep '/' badName.data hbad2]
    have hid : get_atari_identifier badName = Except.error PyError.indexError := by
      unfold get_atari_identifier
      rw [hsplit]
      simp
    simp [get_pruned_focus_file_from_env_name, hbad1, hid]

/-- C2 witness: the amended theorem applied to the spec's own examples plus a
faulting substring name. -/
theorem C2_focus_file_name_witness :
    get_pruned_focus_file_from_env_name "ALE/Pong-v5" = Except.ok "pong.yaml"
  ∧ get_pruned_focus_file_from_env_name "MyCustomGame" = Except.ok "MyCustomGame.yaml"
  ∧ get_pruned_focus_file_from_env_name "BALEnciaga" = Except.error PyError.indexError := by
  have h := C2_focus_file_name "Pong" "5" "MyCustomGame" "BALEnciaga"
    (by decide) (by decide) (by decide) (by decide) (by decide)
  refine ⟨?_, h.2.1, h.2.2⟩
  have h1 := h.1
  rw [(by decide : ("ALE/" ++ "Pong" ++ "-v" ++ "5" : String) = "ALE/Pong-v5")] at h1
  rw [(by decide : (String.mk (pyLower ("Pong" : String).data) ++ ".yaml" : String)
        = "pong.yaml")] at h1
  exact h1

/-! ## Helper lemmas on the per-option scalar loop -/

theorem optionScalars_fault_none (n ep : ℕ) (ls : List (ℕ × List ℚ)) (h : ep ≠ 0) :
    (optionScalars n ep ls).fault = none := by
  induction ls with
  | nil => rfl
  | cons q rest ih =>
    obtain ⟨o, lens⟩ := q
    simp [optionScalars, h, ih]

theorem optionScalars_fault_zero (n : ℕ) (ls : List (ℕ × List ℚ)) (h : ls ≠ []) :
    (optionScalars n 0 ls).fault = some PyError.zeroDivisionError := by
  cases ls with
  | nil => exact absurd rfl h
  | cons q rest =>
    obtain ⟨o, lens⟩ := q
    simp [optionScalars]

theorem optionScalars_mem_active (n ep : ℕ) (ls : List (ℕ × List ℚ)) (h : ep ≠ 0)
    (p : ℕ × List ℚ) (hp : p ∈ ls) :
    ({ tag := optionActiveTag p.1, scalar_value := p.2.sum / (ep : ℚ),
       global_step := n } : ScalarEntry) ∈ (optionScalars n ep ls).entries := by
  induction ls with
  | nil => cases hp
  | cons q rest ih =>
    obtain ⟨o, lens⟩ := q
    rcases List.mem_cons.1 hp with rfl | hp'
    · simp [optionScalars, h]
    · simp only [optionScalars, h, if_neg h]
      exact List.mem_cons_of_mem _ (List.mem_cons_of_mem _ (ih hp'))

theorem optionScalars_mem_avg (n ep : ℕ) (ls : List (ℕ × List ℚ)) (h : ep ≠ 0)
    (p : ℕ × List ℚ) (hp : p ∈ ls) :
    ({ tag := optionAvgTag p.1,
       scalar_value := if p.2.length > 0 then p.2.sum / (p.2.length : ℚ) else 0,
       global_step := n } : ScalarEntry) ∈ (optionScalars n ep ls).entries := by
  induction ls with
  | nil => cases hp
  | cons q rest ih =>
    obtain ⟨o, lens⟩ := q
    rcases List.mem_cons.1 hp with rfl | hp'
    · simp [optionScalars, h]
    · simp only [optionScalars, h, if_neg h]
      exact List.mem_cons_of_mem _ (List.mem_cons_of_mem _ (ih hp'))

theorem optionScalars_global_step (n ep : ℕ) (ls : List (ℕ × List ℚ)) :
    ∀ e ∈ (optionScalars n ep ls).entries, e.global_step = n := by
  induction ls with
  | nil => intro e he; cases he
  | cons q rest ih =>
    obtain ⟨o, lens⟩ := q
    intro e he
    by_cases h0 : ep = 0
    · simp [optionScalars, h0] at he
      rw [he]
    · simp only [optionScalars, if_neg h0] at he
      rcases List.mem_cons.1 he with rfl | he1
      · rfl
      · rcases List.mem_cons.1 he1 with rfl | he2
        · rfl
        · exact ih e he2

/-! ## Claim C3 -/

/-- C3: for every record_episode call with episode step count greater than 0,
the per-option active scalar recorded for each option equals the sum of that
option's activation lengths divided by the episode step count and no fault
occurs; when the episode step count is 0 and some option has a non-empty
activation-length sequence, the call surfaces the unguarded division-by-zero
fault to the caller. -/
theorem C3_active_fraction (s : LoggerState) (steps : ℕ) (reward : ℚ)
    (option_lengths : List (ℕ × List ℚ)) (ep_steps : ℕ) (epsilon : ℚ) :
    (0 < ep_steps →
      (log_episode s steps reward option_lengths ep_steps epsilon).emitted.fault = none ∧
      ∀ p ∈ option_lengths,
        ({ tag := optionActiveTag p.1, scalar_value := p.2.sum / (ep_steps : ℚ),
           global_step := s.n_eps + 1 } : ScalarEntry)
          ∈ (log_episode s steps reward option_lengths ep_steps epsilon).emitted.entries)
  ∧ (ep_steps = 0 → (∃ p ∈ option_lengths, p.2 ≠ []) →
      (log_episode s steps reward option_lengths ep_steps epsilon).emitted.fault
        = some PyError.zeroDivisionError) := by
  constructor
  · intro h
    have h' : ep_steps ≠ 0 := Nat.pos_iff_ne_zero.mp h
    constructor
    · simp [log_episode, optionScalars_fault_none _ _ _ h']
    · intro p hp
      have hmem := optionScalars_mem_active (s.n_eps + 1) ep_steps option_lengths h' p hp
      exact List.mem_cons_of_mem _ (List.mem_cons_of_mem _ hmem)
  · intro h0 hne
    obtain ⟨p, hp, _⟩ := hne
    have hls : option_lengths ≠ [] := by
      rintro rfl
      cases hp
    subst h0
    simp [log_episode, optionScalars_fault_zero _ _ hls]

/-- C3 witness: the theorem applied at a populated episode with 5 steps where
option 0 was active for 2 + 3 = 5 steps (active fraction 1), and at the same
episode with a step count of 0, which faults. -/
theorem C3_active_fraction_witness :
    (log_episode { n_eps := 0 } 10 1 [(0, [2, 3])] 5 0).emitted.fault = none
  ∧ ({ tag := optionActiveTag 0, scalar_value := 1, global_step := 1 } : ScalarEntry)
      ∈ (log_episode { n_eps := 0 } 10 1 [(0, [2, 3])] 5 0).emitted.entries
  ∧ (log_episode { n_eps := 0 } 10 1 [(0, [2, 3])] 0 0).emitted.fault
      = some PyError.zeroDivisionError := by
  have h1 := (C3_active_fraction { n_eps := 0 } 10 1 [(0, [2, 3])] 5 0).1 (by norm_num)
  have h2 := (C3_active_fraction { n_eps := 0 } 10 1 [(0, [2, 3])] 0 0).2 rfl
    ⟨(0, [2, 3]), by simp, by simp⟩
  refine ⟨h1.1, ?_, h2⟩
  have h3 := h1.2 (0, [2, 3]) (by simp)
  norm_num at h3
  exact h3

/-! ## Claim C4 -/

/-- C4: during a non-faulting record_episode call, every option whose
activation-length sequence is empty gets a recorded mean-length scalar of
exactly 0, and the mean computation never faults (the only fault the call can
surface is the division by a zero episode step count, which the hypothesis
excludes); every option with a non-empty sequence gets the arithmetic mean of
its lengths. -/
theorem C4_avg_length (s : LoggerState) (steps : ℕ) (reward : ℚ)
    (option_lengths : List (ℕ × List ℚ)) (ep_steps : ℕ) (epsilon : ℚ)
    (h : ep_steps ≠ 0) :
    (log_episode s steps reward option_lengths ep_steps epsilon).emitted.fault = none
  ∧ ∀ p ∈ option_lengths,
      (p.2 = [] →
        ({ tag := optionAvgTag p.1, scalar_value := 0,
           global_step := s.n_eps + 1 } : ScalarEntry)
          ∈ (log_episode s steps reward option_lengths ep_steps epsilon).emitted.entries)
    ∧ (p.2 ≠ [] →
        ({ tag := optionAvgTag p.1, scalar_value := p.2.sum / (p.2.length : ℚ),
           global_step := s.n_eps + 1 } : ScalarEntry)
          ∈ (log_episode s steps reward option_lengths ep_steps epsilon).emitted.entries) := by
  constructor
  · simp [log_episode, optionScalars_fault_none _ _ _ h]
  · intro p hp
    have hmem := optionScalars_mem_avg (s.n_eps + 1) ep_steps option_lengths h p hp
    constructor
    · intro hempty
      rw [hempty] at hmem
      simp only [List.length_nil, gt_iff_lt, lt_self_iff_false, if_false] at hmem
      exact List.mem_cons_of_mem _ (List.mem_cons_of_mem _ hmem)
    · intro hne
      have hlen : p.2.length > 0 := List.length_pos.mpr hne
      rw [if_pos hlen] at hmem
      exact List.mem_cons_of_mem _ (List.mem_cons_of_mem _ hmem)

/-- C4 witness: the theorem applied at an episode where option 0 has an empty
sequence (mean 0) and option 1 has lengths 2 and 4 (mean 3). -/
theorem C4_avg_length_witness :
    ({ tag := optionAvgTag 0, scalar_value := 0, global_step := 1 } : ScalarEntry)
      ∈ (log_episode { n_eps := 0 } 10 1 [(0, []), (1, [2, 4])] 5 0).emitted.entries
  ∧ ({ tag := optionAvgTag 1, scalar_value := 3, global_step := 1 } : ScalarEntry)
      ∈ (log_episode { n_eps := 0 } 10 1 [(0, []), (1, [2, 4])] 5 0).emitted.entries := by
  have h := C4_avg_length { n_eps := 0 } 10 1 [(0, []), (1, [2, 4])] 5 0 (by norm_num)
  have h0 := (h.2 (0, []) (by simp)).1 rfl
  have h1 := (h.2 (1, [2, 4]) (by simp)).2 (by simp)
  norm_num at h0 h1
  exact ⟨h0, h1⟩

/-! ## Claim C6 -/

/-- C6: the episode counter starts at 0 at construction, every log_episode
call increments it by exactly 1 (so the first call records under counter value
1 and the counter is strictly increasing across calls), every scalar that the
call emits is keyed by the incremented value, and log_data, the only other
recording operation, leaves the state untouched. -/
theorem C6_episode_counter (s : LoggerState) (steps : ℕ) (reward : ℚ)
    (option_lengths : List (ℕ × List ℚ)) (ep_steps : ℕ) (epsilon : ℚ)
    (step : ℕ) (actor_loss critic_loss : Option ℚ) (entropy eps2 : ℚ) :
    loggerInit.n_eps = 0
  ∧ (log_episode s steps reward option_lengths ep_steps epsilon).state.n_eps = s.n_eps + 1
  ∧ (∀ e ∈ (log_episode s steps reward option_lengths ep_steps epsilon).emitted.entries,
      e.global_step = s.n_eps + 1)
  ∧ (log_data s step actor_loss critic_loss entropy eps2).1 = s := by
  refine ⟨rfl, rfl, ?_, rfl⟩
  intro e he
  rcases List.mem_cons.1 he with rfl | he1
  · rfl
  · rcases List.mem_cons.1 he1 with rfl | he2
    · rfl
    · exact optionScalars_global_step _ _ _ e he2

/-- C6 witness: the theorem applied at a concrete state with counter 4: the
call records state 5 and the first emitted scalar is keyed 5. -/
theorem C6_episode_counter_witness :
    loggerInit.n_eps = 0
  ∧ (log_episode { n_eps := 4 } 3 1 [] 2 0).state.n_eps = 5
  ∧ (log_data { n_eps := 4 } 9 none none 0 0).1 = { n_eps := 4 } := by
  have h := C6_episode_counter { n_eps := 4 } 3 1 [] 2 0 9 none none 0 0
  exact ⟨h.1, h.2.1, h.2.2.2⟩

/-! ## Helper lemmas on the environment factory -/

theorem normalize_wrap_container (cfg : VecEnvConfig) (container : VecContainerKind)
    (envs : List ScobiEnvInit) :
    (normalize_wrap cfg container envs).container = container := by
  rcases h : cfg.vec_norm_path with _ | p <;>
    simp [normalize_wrap, h, VecEnvHandle.container]

theorem normalize_wrap_scobiEnvs (cfg : VecEnvConfig) (container : VecContainerKind)
    (envs : List ScobiEnvInit) :
    (normalize_wrap cfg container envs).scobiEnvs = envs := by
  rcases h : cfg.vec_norm_path with _ | p <;>
    simp [normalize_wrap, h, VecEnvHandle.scobiEnvs]

theorem normalize_wrap_isWrapped (cfg : VecEnvConfig) (container : VecContainerKind)
    (envs : List ScobiEnvInit) :
    (normalize_wrap cfg container envs).isNormalizeWrapped = true := by
  rcases h : cfg.vec_norm_path with _ | p <;>
    simp [normalize_wrap, h, VecEnvHandle.isNormalizeWrapped]

theorem init_vec_env_oc_ok (cfg : VecEnvConfig) (h : VecEnvHandle)
    (hoc : cfg.object_centric = true) (hok : init_vec_env cfg = Except.ok h) :
    ∃ fd, prune_concept_dispatch cfg = Except.ok fd ∧
      h = normalize_wrap cfg (select_container cfg.n_envs)
        (scobi_env_factories cfg fd) := by
  unfold init_vec_env at hok
  rw [if_pos hoc] at hok
  cases hd : prune_concept_dispatch cfg with
  | error e => rw [hd] at hok; exact Except.noConfusion hok
  | ok fd =>
    rw [hd] at hok
    injection hok with hh
    exact ⟨fd, rfl, hh.symm⟩

theorem init_vec_env_pixel (cfg : VecEnvConfig) (hoc : cfg.object_centric = false) :
    init_vec_env cfg = Except.ok (VecEnvHandle.pixelFrameStack cfg.framestack
      (select_container cfg.n_envs)
      { name := cfg.name, n_envs := cfg.n_envs, seed := cfg.seed,
        render_mode := cfg.render_mode, frame_skip := cfg.frameskip }) := by
  unfold init_vec_env
  rw [if_neg (by simp [hoc])]

theorem init_vec_env_container (cfg : VecEnvConfig) (h : VecEnvHandle)
    (hok : init_vec_env cfg = Except.ok h) :
    h.container = select_container cfg.n_envs := by
  by_cases hoc : cfg.object_centric = true
  · obtain ⟨fd, _, rfl⟩ := init_vec_env_oc_ok cfg h hoc hok
    exact normalize_wrap_container cfg _ _
  · have hoc' : cfg.object_centric = false := by simpa using hoc
    rw [init_vec_env_pixel cfg hoc'] at hok
    injection hok with hh
    rw [← hh]
    rfl

/-! ## Claim C5 -/

/-- C5: the claim as stated is false on the code: with the valid concept
"default" and the env name WhALEs (which contains "ALE" but no "/"), the
identifier resolution that runs before the concept dispatch raises IndexError,
so the call neither returns the focus path for the identifier nor raises a
configuration error. -/
theorem C5_identifier_fault_counterexample :
    get_focus_file_path "default" "WhALEs" = Except.error PyError.indexError := by
  decide

/-- C5 (amended): for every env name whose identifier resolution does not
fault, get_focus_file_path returns the focus-dir path for concept "default",
the unpruned-focus-dir path built from the name with its first 4 characters
removed for concept "unpruned", and raises the configuration ValueError
exactly for every other concept; names containing "ALE" but no "/" instead
fault with IndexError before the concept is inspected (counterexample). The
object-centric branch of init_vec_env fails fast with the same configuration
ValueError on every unknown prune concept, for every name, because there the
concept dispatch runs first. -/
theorem C5_focus_path_dispatch (prune_concept env_name env_identifier : String)
    (cfg : VecEnvConfig)
    (hid : (if pyIn "ALE" env_name then get_atari_identifier env_name
            else Except.ok env_name) = Except.ok env_identifier)
    (hoc : cfg.object_centric = true)
    (hcpt : ∀ c, cfg.prune_concept = some c → c ≠ "default" ∧ c ≠ "unpruned") :
    (prune_concept = "default" →
      get_focus_file_path prune_concept env_name
        = Except.ok { dir := FOCUS_FILES_DIR, file := env_identifier ++ ".yaml" })
  ∧ (prune_concept = "unpruned" →
      get_focus_file_path prune_concept env_name
        = Except.ok { dir := FOCUS_FILES_DIR_UNPRUNED,
                      file := "default_focus_" ++ pyDropStr env_name 4 ++ ".yaml" })
  ∧ (prune_concept ≠ "default" → prune_concept ≠ "unpruned" →
      get_focus_file_path prune_concept env_name
        = Except.error (PyError.valueError
            ("Unknown prune concept " ++ prune_concept ++ " given.")))
  ∧ init_vec_env cfg = Except.error (PyError.valueError
      ("Unknown prune concept " ++
        (match cfg.prune_concept with
         | some s => s
         | none => "None") ++ ".")) := by
  refine ⟨?_, ?_, ?_, ?_⟩
  · intro hd
    subst hd
    unfold get_focus_file_path
    rw [hid]
    simp
  · intro hu
    subst hu
    unfold get_focus_file_path
    rw [hid]
    simp
  · intro hd hu
    unfold get_focus_file_path
    rw [hid]
    simp [hd, hu]
  · have h1 : ¬ cfg.prune_concept = some "unpruned" := fun he => (hcpt _ he).2 rfl
    have h2 : ¬ cfg.prune_concept = some "default" := fun he => (hcpt _ he).1 rfl
    unfold init_vec_env prune_concept_dispatch
    rw [if_pos hoc, if_neg h1, if_neg h2]

/-- C5 witness: the amended theorem applied to the spec's own example inputs
and to a concrete object-centric configuration with the unknown concept
bogus. -/
theorem C5_focus_path_dispatch_witness :
    get_focus_file_path "default" "ALE/Breakout-v5"
      = Except.ok { dir := FOCUS_FILES_DIR, file := "breakout.yaml" }
  ∧ get_focus_file_path "bogus" "ALE/Breakout-v5"
      = Except.error (PyError.valueError "Unknown prune concept bogus given.")
  ∧ init_vec_env { ocExampleCfg with prune_concept := some "bogus" }
      = Except.error (PyError.valueError "Unknown prune concept bogus.") := by
  have hid : (if pyIn "ALE" "ALE/Breakout-v5" then get_atari_identifier "ALE/Breakout-v5"
      else Except.ok "ALE/Breakout-v5") = Except.ok "breakout" := by decide
  have hcpt : ∀ c, ({ ocExampleCfg with
      prune_concept := some "bogus" } : VecEnvConfig).prune_concept = some c →
      c ≠ "default" ∧ c ≠ "unpruned" := by
    intro c hc
    have hc2 : (some "bogus" : Option String) = some c := hc
    injection hc2 with hc3
    subst hc3
    exact ⟨by decide, by decide⟩
  have hA := C5_focus_path_dispatch "default" "ALE/Breakout-v5" "breakout"
    { ocExampleCfg with prune_concept := some "bogus" } hid rfl hcpt
  have hB := C5_focus_path_dispatch "bogus" "ALE/Breakout-v5" "breakout"
    { ocExampleCfg with prune_concept := some "bogus" } hid rfl hcpt
  refine ⟨?_, ?_, ?_⟩
  · exact (hA.1 rfl).trans (by decide)
  · exact (hB.2.2.1 (by decide) (by decide)).trans (by decide)
  · exact hA.2.2.2.trans (by decide)

/-! ## Claim C7 -/

/-- C7: for every train seed, init_train_eval_envs builds the eval handle from
a configuration whose seed is exactly (seed + 42) * 2, whose reward mode is 0
regardless of the requested training reward mode, and whose render mode is
"human" exactly when render_eval is set and absent otherwise, while the train
configuration keeps the given seed and the requested reward mode (translated
through the REWARD_MODE table); the returned pair is init_vec_env applied to
exactly these two configurations. -/
theorem C7_train_eval_derivation (rewardModeTable : String → ℤ)
    (n_train_envs n_eval_envs : ℕ) (seed : ℤ) (reward_mode : String)
    (render_eval : Bool) (base : VecEnvConfig) :
    (train_eval_configs rewardModeTable n_train_envs n_eval_envs seed reward_mode
        render_eval base).2.seed = (seed + 42) * 2
  ∧ (train_eval_configs rewardModeTable n_train_envs n_eval_envs seed reward_mode
        render_eval base).2.reward_mode = 0
  ∧ (train_eval_configs rewardModeTable n_train_envs n_eval_envs seed reward_mode
        render_eval base).2.render_mode
      = (if render_eval then some "human" else none)
  ∧ (train_eval_configs rewardModeTable n_train_envs n_eval_envs seed reward_mode
        render_eval base).1.seed = seed
  ∧ (train_eval_configs rewardModeTable n_train_envs n_eval_envs seed reward_mode
        render_eval base).1.reward_mode = rewardModeTable reward_mode
  ∧ init_train_eval_envs rewardModeTable n_train_envs n_eval_envs seed reward_mode
      render_eval base
      = (init_vec_env (train_eval_configs rewardModeTable n_train_envs n_eval_envs
            seed reward_mode render_eval base).1,
         init_vec_env (train_eval_configs rewardModeTable n_train_envs n_eval_envs
            seed reward_mode render_eval base).2) := by
  exact ⟨rfl, rfl, rfl, rfl, rfl, rfl⟩

/-! ## Claim C8 -/

/-- C8: for every configuration with at least one environment (with n_envs = 0
no container exists: the external vectorized-container constructor itself
fails on an empty factory list), the container underneath every successfully
returned handle is the parallel SubprocVecEnv kind exactly when n_envs > 1 and
the sequential DummyVecEnv kind exactly when n_envs = 1; the selection is
shared verbatim by the object-centric and the pixel branch, and the theorem
quantifies over both. -/
theorem C8_container_boundary (cfg : VecEnvConfig) (h : VecEnvHandle)
    (hn : 1 ≤ cfg.n_envs) (hok : init_vec_env cfg = Except.ok h) :
    (h.container = VecContainerKind.subproc ↔ 1 < cfg.n_envs)
  ∧ (h.container = VecContainerKind.dummy ↔ cfg.n_envs = 1) := by
  have hc := init_vec_env_container cfg h hok
  rw [hc]
  unfold select_container
  rcases Nat.lt_or_ge 1 cfg.n_envs with h1 | h1
  · rw [if_pos h1]
    exact ⟨⟨fun _ => h1, fun _ => rfl⟩,
           ⟨fun hd => absurd hd (by decide), fun he => absurd he (by omega)⟩⟩
  · have heq : cfg.n_envs = 1 := Nat.le_antisymm h1 hn
    rw [if_neg (by omega)]
    exact ⟨⟨fun hd => absurd hd (by decide), fun hlt => absurd hlt (by omega)⟩,
           ⟨fun _ => heq, fun _ => rfl⟩⟩

/-- C8 witness: the theorem applied to the concrete pixel configuration with
two environments and to the concrete object-centric configuration with three
environments; both get the parallel container. -/
theorem C8_container_boundary_witness :
    (pixelExampleHandle.container = VecContainerKind.subproc
      ↔ 1 < pixelExampleCfg.n_envs)
  ∧ (ocExampleHandle.container = VecContainerKind.subproc
      ↔ 1 < ocExampleCfg.n_envs) := by
  constructor
  · exact (C8_container_boundary pixelExampleCfg pixelExampleHandle (by decide)
      (init_vec_env_pixel pixelExampleCfg rfl)).1
  · exact (C8_container_boundary ocExampleCfg ocExampleHandle (by decide) rfl).1

/-! ## Claim C9 -/

/-- C9: in object-centric mode, every successfully returned handle wraps
exactly n_envs environment factories; the factory at index i has rank i and
resets its Monitor-wrapped environment with seed base_seed + i, so any two
distinct parallel environments receive distinct derived seeds. -/
theorem C9_scobi_factory_seeds (cfg : VecEnvConfig) (h : VecEnvHandle)
    (hoc : cfg.object_centric = true) (hok : init_vec_env cfg = Except.ok h) :
    h.scobiEnvs.length = cfg.n_envs
  ∧ (∀ i, i < cfg.n_envs →
      ∃ f : ScobiEnvInit, h.scobiEnvs[i]? = some f ∧ f.rank = i ∧
        f.reset_seed = cfg.seed + (i : ℤ) ∧ f.monitored = true)
  ∧ (∀ i j, i < cfg.n_envs → j < cfg.n_envs → i ≠ j →
      h.scobiEnvs[i]?.map ScobiEnvInit.reset_seed
        ≠ h.scobiEnvs[j]?.map ScobiEnvInit.reset_seed) := by
  obtain ⟨fd, _, rfl⟩ := init_vec_env_oc_ok cfg h hoc hok
  rw [normalize_wrap_scobiEnvs]
  have hget : ∀ i, i < cfg.n_envs →
      (scobi_env_factories cfg fd)[i]?
        = some (make_scobi_env cfg.name fd.1 fd.2 cfg.exclude_properties i cfg.seed
            true false cfg.reward_mode cfg.render_mode cfg.freeze_invisible_obj
            cfg.render_oc_overlay) := by
    intro i hi
    simp [scobi_env_factories, List.getElem?_range hi]
  refine ⟨by simp [scobi_env_factories], ?_, ?_⟩
  · intro i hi
    exact ⟨_, hget i hi, rfl, rfl, rfl⟩
  · intro i j hi hj hne
    rw [hget i hi, hget j hj]
    simp only [Option.map_some']
    intro hcontra
    injection hcontra with hc2
    have : cfg.seed + (i : ℤ) = cfg.seed + (j : ℤ) := hc2
    omega

/-- C9 witness: the theorem applied to the concrete object-centric
configuration with three environments and base seed 7: three factories are
built and the factory at index 2 resets with seed 9. -/
theorem C9_scobi_factory_seeds_witness :
    ocExampleHandle.scobiEnvs.length = ocExampleCfg.n_envs
  ∧ ocExampleHandle.scobiEnvs[2]?.map ScobiEnvInit.reset_seed = some 9 := by
  have h := C9_scobi_factory_seeds ocExampleCfg ocExampleHandle rfl rfl
  refine ⟨h.1, ?_⟩
  obtain ⟨f, hf, _, hseed, _⟩ := h.2.1 2 (by decide)
  rw [hf]
  simp only [Option.map_some']
  rw [hseed]
  decide

/-! ## Claim C10 -/

/-- C10: for every configuration with object_centric false, init_vec_env
returns the frame-stacked pixel handle with no normalization wrapper, and the
values of normalize_observation, normalize_reward and vec_norm_path have no
effect on the result; conversely with object_centric true every successfully
returned handle is normalization-wrapped, even when both toggles are false and
no statistics path is given. -/
theorem C10_normalization_wrapping (cfg : VecEnvConfig) :
    (cfg.object_centric = false →
      init_vec_env cfg = Except.ok (VecEnvHandle.pixelFrameStack cfg.framestack
          (select_container cfg.n_envs)
          { name := cfg.name, n_envs := cfg.n_envs, seed := cfg.seed,
            render_mode := cfg.render_mode, frame_skip := cfg.frameskip })
      ∧ (∀ h, init_vec_env cfg = Except.ok h → h.isNormalizeWrapped = false)
      ∧ (∀ no nr vp, init_vec_env cfg
          = init_vec_env { cfg with
              normalize_observation := no
              normalize_reward := nr
              vec_norm_path := vp }))
  ∧ (cfg.object_centric = true →
      ∀ h, init_vec_env cfg = Except.ok h → h.isNormalizeWrapped = true) := by
  constructor
  · intro hoc
    refine ⟨init_vec_env_pixel cfg hoc, ?_, ?_⟩
    · intro h hok
      rw [init_vec_env_pixel cfg hoc] at hok
      injection hok with hh
      rw [← hh]
      rfl
    · intro no nr vp
      rw [init_vec_env_pixel cfg hoc,
          init_vec_env_pixel { cfg with
            normalize_observation := no
            normalize_reward := nr
            vec_norm_path := vp } hoc]
  · intro hoc h hok
    obtain ⟨fd, _, rfl⟩ := init_vec_env_oc_ok cfg h hoc hok
    exact normalize_wrap_isWrapped cfg _ _

/-- C10 witness: for the concrete pixel configuration, flipping both
normalization toggles and supplying a statistics path leaves the result
untouched; the concrete object-centric handle with both toggles off is still
normalization-wrapped. -/
theorem C10_normalization_wrapping_witness :
    init_vec_env pixelExampleCfg
      = init_vec_env { pixelExampleCfg with
          normalize_observation := true
          normalize_reward := true
          vec_norm_path := some "stats.pkl" }
  ∧ ocExampleHandle.isNormalizeWrapped = true := by
  refine ⟨((C10_normalization_wrapping pixelExampleCfg).1 rfl).2.2 true true
    (some "stats.pkl"), ?_⟩
  exact (C10_normalization_wrapping ocExampleCfg).2 rfl ocExampleHandle rfl

end OCOC
